import Mathlib

/-!
Shallow embedding of the railway-ticket reservation core
(`src/tools.py` and `src/server.py`).

The seat table `t_seat` is a list of rows.  `seat_status = 0` means the
seat is AVAILABLE, `seat_status = 1` means BOOKED.  SQL result order is
modelled by list order.  `num_seats` is an `Int`, as the Python `int`
argument of the MCP tool may be zero or negative.

Transaction-layer failures (connection loss, deadlock, constraint
violation) are modelled by a boolean fault flag injected at the
update/commit step of the booking transaction; a fault rolls the
transaction back (the table is returned unchanged) and `book_ticket`
returns its `"订票失败: ..."` string, exactly as the
`except Exception` / `conn.rollback()` path of the source does.
-/

/-- A row of the `t_seat` table. -/
structure Seat where
  id : Nat
  start_station : String
  end_station : String
  seat_status : Nat
deriving DecidableEq

/-- The seat table. -/
abbrev Table := List Seat

/-- The WHERE clause shared by both queries:
`seat_status=0 AND start_station=%s AND end_station=%s`
(exact, case-sensitive string comparison). -/
def seatMatches (s e : String) (r : Seat) : Bool :=
  r.seat_status == 0 && r.start_station == s && r.end_station == e

/-- `check_ticket` of `src/tools.py`:
`SELECT COUNT(*) FROM t_seat WHERE seat_status=0 AND start_station=%s AND end_station=%s`.
A COUNT query always returns one row, so the `if result else 0` fallback
never fires; the function returns the count. -/
def check_ticket (s e : String) (t : Table) : Nat :=
  t.countP (seatMatches s e)

/-- `check_ticket` together with the table it leaves behind: the body is a
single SELECT, which mutates nothing, so the table is returned unchanged. -/
def check_ticket_run (s e : String) (t : Table) : Nat × Table :=
  (check_ticket s e t, t)

/-- The rows selected and locked by
`SELECT id FROM t_seat WHERE seat_status=0 AND ... LIMIT %s FOR UPDATE`:
the first `num_seats` available rows matching the route
(meaningful only for a non-negative limit; a negative LIMIT is a SQL error). -/
def selectedSeats (s e : String) (n : Int) (t : Table) : List Seat :=
  (t.filter (seatMatches s e)).take n.toNat

/-- `UPDATE t_seat SET seat_status=1 WHERE id IN (ids)`: every row whose id
occurs in `ids` has its status set to 1; every other row is untouched. -/
def bookUpdate (ids : List Nat) (t : Table) : Table :=
  t.map (fun r => if ids.contains r.id then { r with seat_status := 1 } else r)

/-- `book_ticket` of `src/tools.py`.  Returns the string the Python function
returns together with the table after the transaction.

Branches, in source order:
* a negative `num_seats` makes `LIMIT %s` a SQL error at `execute`;
  the `except` clause rolls back and returns the failure string;
* `len(seats) < num_seats`: the insufficient-availability string is
  returned before any UPDATE (no mutation);
* `seats` empty (only possible when `num_seats = 0`, since the previous
  branch catches `0 < num_seats` with no seats): the interpolated
  `WHERE id IN ()` is a SQL syntax error; rollback, failure string;
* an injected transaction-layer fault at the update/commit step:
  rollback, failure string;
* otherwise the UPDATE commits and the success string is returned. -/
def book_ticket (s e : String) (n : Int) (fault : Bool) (t : Table) :
    String × Table :=
  if n < 0 then
    ("订票失败: LIMIT 参数为负导致 SQL 错误", t)
  else if ((selectedSeats s e n t).length : Int) < n then
    ("余票不足，当前可用 " ++ toString (selectedSeats s e n t).length ++ " 张票", t)
  else if (selectedSeats s e n t).isEmpty then
    ("订票失败: 空的 IN () 列表导致 SQL 语法错误", t)
  else if fault then
    ("订票失败: 事务层错误", t)
  else
    ("订票成功，扣减 " ++ toString n ++ " 张票",
      bookUpdate ((selectedSeats s e n t).map Seat.id) t)

/-- Status field of the structured result dictionaries of `src/server.py`. -/
inductive BookStatus
  | success
  | fail
deriving DecidableEq

/-- The dictionary `{"status": ..., "message": ..., "booked": ...}` returned
by `book_ticket_tool`. -/
structure BookResult where
  status : BookStatus
  message : String
  booked : Int
deriving DecidableEq

/-- `book_ticket_tool` of `src/server.py`.  It first runs `check_ticket`
(whose result is never `None`, so the `remaining is None` branch of the
source is dead), rejects `num_seats > remaining`, then calls
`book_ticket` and DISCARDS its return string, reporting success with
`booked = num_seats` unconditionally. -/
def book_ticket_tool (s e : String) (n : Int) (fault : Bool) (t : Table) :
    BookResult × Table :=
  if n > (check_ticket s e t : Int) then
    ({ status := BookStatus.fail,
       message := "余票不足，仅剩 " ++ toString (check_ticket s e t) ++ " 张",
       booked := 0 }, t)
  else
    ({ status := BookStatus.success,
       message := "订票成功，扣减 " ++ toString n ++ " 张票",
       booked := n }, (book_ticket s e n fault t).2)

/-- One operation against the store: an availability check (a pure SELECT)
or a booking. -/
inductive Op
  | check (s e : String)
  | book (s e : String) (n : Int) (fault : Bool)

/-- Effect of one operation on the seat table. -/
def applyOp (o : Op) (t : Table) : Table :=
  match o with
  | Op.check s e => (check_ticket_run s e t).2
  | Op.book s e n fault => (book_ticket s e n fault t).2

/-- Effect of a sequence of operations on the seat table. -/
def applyOps (ops : List Op) (t : Table) : Table :=
  ops.foldl (fun t o => applyOp o t) t

/-- How one seat may evolve: identity and route never change, and the only
status change is AVAILABLE (0) to BOOKED (1). -/
def seatEvolves (a b : Seat) : Prop :=
  b.id = a.id ∧ b.start_station = a.start_station ∧
    b.end_station = a.end_station ∧
    (b.seat_status = a.seat_status ∨ (a.seat_status = 0 ∧ b.seat_status = 1))

/-! ### Basic facts about the locking SELECT and the UPDATE -/

/-- The locked selection is a sublist of the table. -/
lemma selectedSeats_sublist (s e : String) (n : Int) (t : Table) :
    (selectedSeats s e n t).Sublist t :=
  (List.take_sublist _ _).trans (List.filter_sublist t)

/-- Every selected row is AVAILABLE and matches the requested route. -/
lemma selectedSeats_matches (s e : String) (n : Int) (t : Table) :
    ∀ x ∈ selectedSeats s e n t, seatMatches s e x = true :=
  fun _ hx => List.of_mem_filter (List.mem_of_mem_take hx)

/-- `LIMIT` bounds the selection size. -/
lemma selectedSeats_length_le (s e : String) (n : Int) (t : Table) :
    (selectedSeats s e n t).length ≤ n.toNat := by
  rw [selectedSeats, List.length_take]
  exact inf_le_left

/-- With unique ids, two rows of the table carrying the same id coincide. -/
lemma seat_eq_of_id_eq {t : Table} (hnd : (t.map Seat.id).Nodup)
    {x r : Seat} (hx : x ∈ t) (hr : r ∈ t) (h : x.id = r.id) : x = r :=
  List.inj_on_of_nodup_map hnd hx hr h

/-- With unique ids, a table row whose id occurs among the ids of a sublist
is itself a member of that sublist. -/
lemma mem_of_contains_id {sel t : Table} (hsub : sel.Sublist t)
    (hnd : (t.map Seat.id).Nodup) {r : Seat} (hr : r ∈ t)
    (hc : (sel.map Seat.id).contains r.id = true) : r ∈ sel := by
  have hmem : r.id ∈ sel.map Seat.id := List.elem_iff.mp hc
  rcases List.mem_map.mp hmem with ⟨x, hxsel, hxid⟩
  have hxt : x ∈ t := hsub.subset hxsel
  have hxr : x = r := seat_eq_of_id_eq hnd hxt hr hxid
  exact hxr ▸ hxsel

/-- Splitting a count along an auxiliary Boolean predicate. -/
lemma countP_split (q p : Seat → Bool) (t : Table) :
    t.countP (fun r => q r && p r) + t.countP (fun r => !q r && p r)
      = t.countP p := by
  induction t with
  | nil => rfl
  | cons a t ih =>
      simp only [List.countP_cons]
      cases hq : q a <;> cases hp : p a <;> simp [hq, hp] <;> omega

/-- Pointwise equal predicates count alike. -/
lemma countP_ext (p q : Seat → Bool) (t : Table) (h : ∀ x ∈ t, p x = q x) :
    t.countP p = t.countP q :=
  List.countP_congr (fun x hx => by rw [h x hx])

/-- With unique ids, the rows of the table whose id occurs among the ids of
a sublist are counted exactly once each. -/
lemma countP_contains_selected : ∀ {sel t : Table}, sel.Sublist t →
    (t.map Seat.id).Nodup →
    t.countP (fun r => (sel.map Seat.id).contains r.id) = sel.length := by
  intro sel t hsub
  induction hsub with
  | slnil => intro _; rfl
  | @cons sel t a hsub ih =>
      intro hnd
      have hnd2 : (a.id :: t.map Seat.id).Nodup := by simpa using hnd
      obtain ⟨hna, hnd1⟩ := List.nodup_cons.mp hnd2
      have hnmem : a.id ∉ sel.map Seat.id :=
        fun hmem => hna ((hsub.map Seat.id).subset hmem)
      have hqa : (sel.map Seat.id).contains a.id = false := by
        cases hq : (sel.map Seat.id).contains a.id
        · rfl
        · exact absurd (List.elem_iff.mp hq) hnmem
      simp only [List.countP_cons]
      rw [hqa, ih hnd1]
      simp
  | @cons₂ sel t a hsub ih =>
      intro hnd
      have hnd2 : (a.id :: t.map Seat.id).Nodup := by simpa using hnd
      obtain ⟨hna, hnd1⟩ := List.nodup_cons.mp hnd2
      have hcongr : ∀ x ∈ t,
          (fun r => (((a :: sel).map Seat.id).contains r.id)) x
            = (fun r => ((sel.map Seat.id).contains r.id)) x := by
        intro x hx
        have hxid : (x.id == a.id) = false := by
          have hne : x.id ≠ a.id :=
            fun h => hna (h ▸ List.mem_map_of_mem Seat.id hx)
          exact beq_false_of_ne hne
        show ((a.id :: sel.map Seat.id).contains x.id)
          = ((sel.map Seat.id).contains x.id)
        rw [List.contains_cons, hxid, Bool.false_or]
      have hqa : ((a :: sel).map Seat.id).contains a.id = true := by
        show ((a.id :: sel.map Seat.id).contains a.id) = true
        rw [List.contains_cons, beq_self_eq_true, Bool.true_or]
      simp only [List.countP_cons]
      rw [countP_ext _ _ t hcongr, ih hnd1, hqa]
      simp

/-- Booking a sublist of available matching rows removes exactly its length
from the availability count (ids assumed unique). -/
lemma countP_bookUpdate (s e : String) {sel t : Table}
    (hsub : sel.Sublist t) (hsel : ∀ x ∈ sel, seatMatches s e x = true)
    (hnd : (t.map Seat.id).Nodup) :
    (bookUpdate (sel.map Seat.id) t).countP (seatMatches s e)
      = t.countP (seatMatches s e) - sel.length := by
  have hq2p : ∀ x ∈ t,
      (fun r => ((sel.map Seat.id).contains r.id && seatMatches s e r)) x
        = (fun r => ((sel.map Seat.id).contains r.id)) x := by
    intro x hx
    show ((sel.map Seat.id).contains x.id && seatMatches s e x)
      = ((sel.map Seat.id).contains x.id)
    cases h : (sel.map Seat.id).contains x.id
    · rw [Bool.false_and]
    · rw [hsel x (mem_of_contains_id hsub hnd hx h), Bool.true_and]
  have h1 : t.countP (fun r => (sel.map Seat.id).contains r.id
      && seatMatches s e r) = sel.length :=
    (countP_ext _ _ t hq2p).trans (countP_contains_selected hsub hnd)
  have h2 := countP_split (fun r => (sel.map Seat.id).contains r.id)
    (seatMatches s e) t
  have hpt : ∀ x ∈ t,
      (seatMatches s e ∘ fun r =>
          if (sel.map Seat.id).contains r.id then { r with seat_status := 1 }
          else r) x
        = (fun r => (!(sel.map Seat.id).contains r.id && seatMatches s e r)) x := by
    intro x _
    show seatMatches s e
        (if (sel.map Seat.id).contains x.id then { x with seat_status := 1 }
         else x)
      = (!(sel.map Seat.id).contains x.id && seatMatches s e x)
    cases h : (sel.map Seat.id).contains x.id
    · simp
    · simp [seatMatches]
  unfold bookUpdate
  rw [List.countP_map, countP_ext _ _ t hpt]
  omega

/-! ### Branch analysis of the booking transaction -/

/-- The UPDATE does not change row ids. -/
lemma map_id_bookUpdate (ids : List Nat) (t : Table) :
    (bookUpdate ids t).map Seat.id = t.map Seat.id := by
  unfold bookUpdate
  rw [List.map_map]
  refine List.map_congr_left ?_
  intro a _
  show Seat.id (if ids.contains a.id then { a with seat_status := 1 } else a)
    = a.id
  cases h : ids.contains a.id
  · rfl
  · rfl

/-- When the request does not exceed availability, the `LIMIT` clause is
filled: exactly `n` rows get selected and locked. -/
lemma selectedSeats_length_eq (s e : String) (n : Int) (t : Table)
    (_h0 : 0 ≤ n) (h2 : n ≤ (check_ticket s e t : Int)) :
    (selectedSeats s e n t).length = n.toNat := by
  rw [selectedSeats, List.length_take]
  have hle : n.toNat ≤ (t.filter (seatMatches s e)).length := by
    rw [← List.countP_eq_length_filter]
    exact Int.toNat_le.mpr h2
  exact inf_eq_left.mpr hle

/-- Happy-path equation of the booking transaction: with `1 ≤ n` within
availability and no transaction fault, the UPDATE commits. -/
lemma book_ticket_success_eq (s e : String) (n : Int) (t : Table)
    (h1 : 1 ≤ n) (h2 : n ≤ (check_ticket s e t : Int)) :
    book_ticket s e n false t
      = ("订票成功，扣减 " ++ toString n ++ " 张票",
          bookUpdate ((selectedSeats s e n t).map Seat.id) t) := by
  have h0 : 0 ≤ n := le_trans (by norm_num) h1
  have hlen : (selectedSeats s e n t).length = n.toNat :=
    selectedSeats_length_eq s e n t h0 h2
  have hnotlt : ¬ (((selectedSeats s e n t).length : Int) < n) := by
    rw [hlen, Int.toNat_of_nonneg h0]
    exact lt_irrefl n
  have hlen0 : (selectedSeats s e n t).length ≠ 0 := by
    rw [hlen]
    omega
  have hnotmt : ¬ ((selectedSeats s e n t).isEmpty = true) :=
    fun h => hlen0 (List.isEmpty_iff_length_eq_zero.mp h)
  unfold book_ticket
  rw [if_neg (by omega : ¬ n < 0), if_neg hnotlt, if_neg hnotmt,
    if_neg (by simp : ¬ (false = true))]

/-- The tool's reply when the requested count does not exceed the
availability snapshot: success is reported whatever the inner
transaction returned, because its string is discarded. -/
lemma book_ticket_tool_le_eq (s e : String) (n : Int) (fault : Bool)
    (t : Table) (h : n ≤ (check_ticket s e t : Int)) :
    book_ticket_tool s e n fault t
      = ({ status := BookStatus.success,
           message := "订票成功，扣减 " ++ toString n ++ " 张票",
           booked := n }, (book_ticket s e n fault t).2) := by
  have hng : ¬ (n > (check_ticket s e t : Int)) := by omega
  unfold book_ticket_tool
  rw [if_neg hng]

/-- One successful tool booking: reply, exact deduction and preserved ids
(shared by the single-call and the repeated-call theorems). -/
lemma book_ticket_tool_step (s e : String) (n : Int) (t : Table)
    (hnd : (t.map Seat.id).Nodup) (h1 : 1 ≤ n)
    (h2 : n ≤ (check_ticket s e t : Int)) :
    (book_ticket_tool s e n false t).1
      = { status := BookStatus.success,
          message := "订票成功，扣减 " ++ toString n ++ " 张票", booked := n }
    ∧ ((check_ticket s e (book_ticket_tool s e n false t).2 : Int)
        = (check_ticket s e t : Int) - n)
    ∧ ((book_ticket_tool s e n false t).2).map Seat.id = t.map Seat.id := by
  have h0 : 0 ≤ n := le_trans (by norm_num) h1
  rw [book_ticket_tool_le_eq s e n false t h2,
    book_ticket_success_eq s e n t h1 h2]
  have hA : n.toNat ≤ t.countP (seatMatches s e) := Int.toNat_le.mpr h2
  refine ⟨rfl, ?_, ?_⟩
  · show (check_ticket s e
        (bookUpdate ((selectedSeats s e n t).map Seat.id) t) : Int)
      = (check_ticket s e t : Int) - n
    have hcnt : check_ticket s e
        (bookUpdate ((selectedSeats s e n t).map Seat.id) t)
      = check_ticket s e t - (selectedSeats s e n t).length :=
      countP_bookUpdate s e (selectedSeats_sublist s e n t)
        (selectedSeats_matches s e n t) hnd
    rw [hcnt, selectedSeats_length_eq s e n t h0 h2]
    have hA2 : n.toNat ≤ check_ticket s e t := hA
    rw [Nat.cast_sub hA2, Int.toNat_of_nonneg h0]
  · show (bookUpdate ((selectedSeats s e n t).map Seat.id) t).map Seat.id
      = t.map Seat.id
    exact map_id_bookUpdate _ _

/-! ### Demonstration tables -/

/-- Five AVAILABLE seats on route A→B. -/
def demoTable : Table :=
  [⟨1, "A", "B", 0⟩, ⟨2, "A", "B", 0⟩, ⟨3, "A", "B", 0⟩,
   ⟨4, "A", "B", 0⟩, ⟨5, "A", "B", 0⟩]

/-- A single AVAILABLE seat on route A→B. -/
def demoTable1 : Table := [⟨1, "A", "B", 0⟩]

/-! ### The claims -/

/-- C1: for every route with `A` seats AVAILABLE, a single sequential
`book_ticket_tool` call requesting `1 ≤ n ≤ A` seats returns a success
outcome with `booked = n`, and the AVAILABLE count afterwards is exactly
`A - n` (row ids assumed unique, per the data model). -/
theorem booking_within_availability_deducts_exactly (s e : String) (n : Int)
    (t : Table) (hnd : (t.map Seat.id).Nodup) (h1 : 1 ≤ n)
    (h2 : n ≤ (check_ticket s e t : Int)) :
    (book_ticket_tool s e n false t).1
      = { status := BookStatus.success,
          message := "订票成功，扣减 " ++ toString n ++ " 张票", booked := n }
    ∧ ((check_ticket s e (book_ticket_tool s e n false t).2 : Int)
        = (check_ticket s e t : Int) - n) := by
  obtain ⟨ha, hb, -⟩ := book_ticket_tool_step s e n t hnd h1 h2
  exact ⟨ha, hb⟩

/-- Witness for C1: booking 2 of 5 seats succeeds and leaves 3. -/
theorem booking_within_availability_deducts_exactly_witness :
    ((demoTable.map Seat.id).Nodup ∧ (1 : Int) ≤ 2
        ∧ (2 : Int) ≤ (check_ticket "A" "B" demoTable : Int))
    ∧ ((book_ticket_tool "A" "B" 2 false demoTable).1
        = { status := BookStatus.success,
            message := "订票成功，扣减 " ++ toString (2 : Int) ++ " 张票",
            booked := 2 }
      ∧ ((check_ticket "A" "B"
            (book_ticket_tool "A" "B" 2 false demoTable).2 : Int)
          = (check_ticket "A" "B" demoTable : Int) - 2)) :=
  ⟨⟨by decide, by decide, by decide⟩,
    booking_within_availability_deducts_exactly "A" "B" 2 demoTable
      (by decide) (by decide) (by decide)⟩

/-- C2: a request exceeding availability is rejected with a failure
outcome, `booked = 0`, a message stating the actual available count, and
an unchanged table (no partial deduction). -/
theorem booking_beyond_availability_fails_unchanged (s e : String) (n : Int)
    (fault : Bool) (t : Table) (h : (check_ticket s e t : Int) < n) :
    book_ticket_tool s e n fault t
      = ({ status := BookStatus.fail,
           message := "余票不足，仅剩 " ++ toString (check_ticket s e t) ++ " 张",
           booked := 0 }, t) := by
  unfold book_ticket_tool
  rw [if_pos h]

/-- Witness for C2: requesting 2 seats with only 1 available fails,
reports the count 1, and changes nothing. -/
theorem booking_beyond_availability_fails_unchanged_witness :
    ((check_ticket "A" "B" demoTable1 : Int) < 2)
    ∧ book_ticket_tool "A" "B" 2 false demoTable1
      = ({ status := BookStatus.fail,
           message := "余票不足，仅剩 "
             ++ toString (check_ticket "A" "B" demoTable1) ++ " 张",
           booked := 0 }, demoTable1) :=
  ⟨by decide,
    booking_beyond_availability_fails_unchanged "A" "B" 2 false demoTable1
      (by decide)⟩

/-- C6: once the availability pre-check passes (`remaining >= num_seats`),
`book_ticket_tool` reports success with `booked = num_seats` no matter
what the inner `book_ticket` transaction did — its return string
(insufficient-availability or transaction-failure message included) is
discarded, so the inner outcome never affects the reported result. -/
theorem tool_discards_inner_outcome (s e : String) (n : Int) (fault : Bool)
    (t : Table) (h : n ≤ (check_ticket s e t : Int)) :
    (book_ticket_tool s e n fault t).1
      = { status := BookStatus.success,
          message := "订票成功，扣减 " ++ toString n ++ " 张票",
          booked := n } := by
  rw [book_ticket_tool_le_eq s e n fault t h]

/-- Witness for C6: with 5 seats available and a faulted inner transaction
(which rolled back and returned a failure string), the tool still reports
success with `booked = 2`. -/
theorem tool_discards_inner_outcome_witness :
    ((2 : Int) ≤ (check_ticket "A" "B" demoTable : Int))
    ∧ (book_ticket_tool "A" "B" 2 true demoTable).1
      = { status := BookStatus.success,
          message := "订票成功，扣减 " ++ toString (2 : Int) ++ " 张票",
          booked := 2 } :=
  ⟨by decide, tool_discards_inner_outcome "A" "B" 2 true demoTable (by decide)⟩

/-- C4 (failing-input demonstration): a transaction-layer error during the
booking transaction is rolled back inside `book_ticket` (table unchanged,
failure string returned), but the caller of `book_ticket_tool` receives a
SUCCESS outcome with `booked = 2` — not the store-failure outcome the
claim requires — because the failure string is discarded. -/
theorem transaction_failure_masked_as_success :
    (book_ticket "A" "B" 2 true demoTable).1 = "订票失败: 事务层错误"
    ∧ (book_ticket "A" "B" 2 true demoTable).2 = demoTable
    ∧ (book_ticket_tool "A" "B" 2 true demoTable).1
      = { status := BookStatus.success,
          message := "订票成功，扣减 2 张票", booked := 2 } :=
  ⟨rfl, rfl, rfl⟩

/-- C5 (failing-input demonstration): a non-positive requested count is not
rejected by any validation.  With one seat available, `num_seats = 0`
slips past the `num_seats > remaining` test, the inner transaction dies
on the empty `IN ()` list (rolled back, no seat touched), and the tool
reports a SUCCESS outcome with `booked = 0`; `num_seats = -1` likewise
yields a SUCCESS outcome with `booked = -1`. -/
theorem nonpositive_count_not_rejected :
    (book_ticket_tool "A" "B" 0 false demoTable1).1
      = { status := BookStatus.success,
          message := "订票成功，扣减 0 张票", booked := 0 }
    ∧ (book_ticket_tool "A" "B" 0 false demoTable1).2 = demoTable1
    ∧ (book_ticket_tool "A" "B" (-1) false demoTable1).1
      = { status := BookStatus.success,
          message := "订票成功，扣减 -1 张票", booked := -1 }
    ∧ (book_ticket_tool "A" "B" (-1) false demoTable1).2 = demoTable1 :=
  ⟨rfl, rfl, rfl, rfl⟩

/-- C8: `check_ticket` returns the (non-negative) number of seats whose
status is AVAILABLE and whose stations equal the requested route exactly;
it returns 0 when no seat matches (not an error); and it leaves the seat
table untouched. -/
theorem check_ticket_counts_matching_seats (s e : String) (t : Table) :
    (check_ticket_run s e t).2 = t
    ∧ (check_ticket_run s e t).1
      = (t.filter (fun r =>
          r.seat_status == 0 && r.start_station == s && r.end_station == e)).length
    ∧ ((∀ r ∈ t, ¬(r.seat_status = 0 ∧ r.start_station = s ∧ r.end_station = e)) →
        (check_ticket_run s e t).1 = 0) := by
  refine ⟨rfl, List.countP_eq_length_filter _ _, ?_⟩
  intro hnone
  show t.countP (seatMatches s e) = 0
  rw [List.countP_eq_zero]
  intro r hr
  intro hmatch
  rcases Bool.and_eq_true_iff.mp hmatch with ⟨h12, h3⟩
  rcases Bool.and_eq_true_iff.mp h12 with ⟨h1, h2⟩
  exact hnone r hr ⟨by simpa using h1, by simpa using h2, by simpa using h3⟩

/-- Witness for C8: a table whose only seats are booked or on another
route yields count 0 with the table unchanged. -/
theorem check_ticket_counts_matching_seats_witness :
    ((check_ticket_run "A" "B" [⟨1, "A", "B", 1⟩, ⟨2, "X", "Y", 0⟩]).2
        = [⟨1, "A", "B", 1⟩, ⟨2, "X", "Y", 0⟩]
      ∧ (∀ r ∈ ([⟨1, "A", "B", 1⟩, ⟨2, "X", "Y", 0⟩] : Table),
          ¬(r.seat_status = 0 ∧ r.start_station = "A" ∧ r.end_station = "B")))
    ∧ (check_ticket_run "A" "B" [⟨1, "A", "B", 1⟩, ⟨2, "X", "Y", 0⟩]).1 = 0 :=
  ⟨⟨(check_ticket_counts_matching_seats "A" "B" _).1, by decide⟩,
    (check_ticket_counts_matching_seats "A" "B"
        [⟨1, "A", "B", 1⟩, ⟨2, "X", "Y", 0⟩]).2.2 (by decide)⟩

/-! ### Monotonic evolution of seats -/

/-- A seat evolves to itself. -/
lemma seatEvolves_refl (a : Seat) : seatEvolves a a :=
  ⟨rfl, rfl, rfl, Or.inl rfl⟩

/-- Seat evolution composes. -/
lemma seatEvolves_trans {a b c : Seat} (h1 : seatEvolves a b)
    (h2 : seatEvolves b c) : seatEvolves a c := by
  obtain ⟨i1, s1, e1, st1⟩ := h1
  obtain ⟨i2, s2, e2, st2⟩ := h2
  refine ⟨i2.trans i1, s2.trans s1, e2.trans e1, ?_⟩
  rcases st1 with h | ⟨ha, hb⟩
  · rcases st2 with g | ⟨gb, gc⟩
    · exact Or.inl (g.trans h)
    · exact Or.inr ⟨h ▸ gb, gc⟩
  · rcases st2 with g | ⟨gb, gc⟩
    · exact Or.inr ⟨ha, g.trans hb⟩
    · exact Or.inr ⟨ha, gc⟩

/-- Pointwise seat evolution composes along tables. -/
lemma forall₂_seatEvolves_trans : ∀ {a b c : Table},
    List.Forall₂ seatEvolves a b → List.Forall₂ seatEvolves b c →
    List.Forall₂ seatEvolves a c := by
  intro a b c h1
  induction h1 generalizing c with
  | nil =>
      intro h2
      cases h2
      exact List.Forall₂.nil
  | cons hab h1 ih =>
      intro h2
      cases h2 with
      | cons hbc h2 =>
          exact List.Forall₂.cons (seatEvolves_trans hab hbc) (ih h2)

/-- A matching row is AVAILABLE. -/
lemma seat_status_of_matches {s e : String} {x : Seat}
    (h : seatMatches s e x = true) : x.seat_status = 0 := by
  rcases Bool.and_eq_true_iff.mp h with ⟨h12, -⟩
  rcases Bool.and_eq_true_iff.mp h12 with ⟨h1, -⟩
  simpa using h1

/-- A single booking transaction only evolves seats forward. -/
lemma book_ticket_evolves (s e : String) (n : Int) (fault : Bool) (t : Table)
    (hnd : (t.map Seat.id).Nodup) :
    List.Forall₂ seatEvolves t (book_ticket s e n fault t).2 := by
  have hrefl : List.Forall₂ seatEvolves t t :=
    List.forall₂_same.mpr (fun x _ => seatEvolves_refl x)
  unfold book_ticket
  split
  · exact hrefl
  · split
    · exact hrefl
    · split
      · exact hrefl
      · split
        · exact hrefl
        · show List.Forall₂ seatEvolves t
            (bookUpdate ((selectedSeats s e n t).map Seat.id) t)
          unfold bookUpdate
          rw [List.forall₂_map_right_iff, List.forall₂_same]
          intro x hx
          by_cases h : ((selectedSeats s e n t).map Seat.id).contains x.id = true
          · have hxsel : x ∈ selectedSeats s e n t :=
              mem_of_contains_id (selectedSeats_sublist s e n t) hnd hx h
            have hx0 : x.seat_status = 0 :=
              seat_status_of_matches (selectedSeats_matches s e n t x hxsel)
            show seatEvolves x
              (if ((selectedSeats s e n t).map Seat.id).contains x.id
               then { x with seat_status := 1 } else x)
            rw [if_pos h]
            exact ⟨rfl, rfl, rfl, Or.inr ⟨hx0, rfl⟩⟩
          · show seatEvolves x
              (if ((selectedSeats s e n t).map Seat.id).contains x.id
               then { x with seat_status := 1 } else x)
            rw [if_neg h]
            exact seatEvolves_refl x

/-- The booking transaction never changes row ids. -/
lemma map_id_book_ticket (s e : String) (n : Int) (fault : Bool) (t : Table) :
    ((book_ticket s e n fault t).2).map Seat.id = t.map Seat.id := by
  unfold book_ticket
  split
  · rfl
  · split
    · rfl
    · split
      · rfl
      · split
        · rfl
        · exact map_id_bookUpdate _ _

/-- No operation changes row ids. -/
lemma map_id_applyOp (o : Op) (t : Table) :
    (applyOp o t).map Seat.id = t.map Seat.id := by
  cases o with
  | check s e => rfl
  | book s e n fault => exact map_id_book_ticket s e n fault t

/-- One operation only evolves seats forward. -/
lemma applyOp_evolves (o : Op) (t : Table) (hnd : (t.map Seat.id).Nodup) :
    List.Forall₂ seatEvolves t (applyOp o t) := by
  cases o with
  | check s e => exact List.forall₂_same.mpr (fun x _ => seatEvolves_refl x)
  | book s e n fault => exact book_ticket_evolves s e n fault t hnd

/-- C7: over every sequence of CheckAvailability and BookSeats operations
(row ids unique), every seat keeps its id and route, no seat is deleted,
and its status either stays put or moves from AVAILABLE (0) to
BOOKED (1) — never back.  Hence the set of BOOKED seats grows
monotonically. -/
theorem seats_evolve_monotonically : ∀ (ops : List Op) (t : Table),
    (t.map Seat.id).Nodup →
    List.Forall₂ seatEvolves t (applyOps ops t)
    ∧ (applyOps ops t).length = t.length := by
  intro ops
  induction ops with
  | nil =>
      intro t _
      exact ⟨List.forall₂_same.mpr (fun x _ => seatEvolves_refl x), rfl⟩
  | cons o ops ih =>
      intro t hnd
      have h1 : List.Forall₂ seatEvolves t (applyOp o t) :=
        applyOp_evolves o t hnd
      have hnd2 : ((applyOp o t).map Seat.id).Nodup := by
        rw [map_id_applyOp]
        exact hnd
      obtain ⟨h2, hlen⟩ := ih (applyOp o t) hnd2
      have hstep : List.Forall₂ seatEvolves t (applyOps ops (applyOp o t)) :=
        forall₂_seatEvolves_trans h1 h2
      refine ⟨hstep, ?_⟩
    -- Forall₂ gives the length equation directly
      exact hstep.length_eq.symm

/-- Witness for C7: one booking followed by one check on a one-seat table. -/
theorem seats_evolve_monotonically_witness :
    ((demoTable1.map Seat.id).Nodup)
    ∧ (List.Forall₂ seatEvolves demoTable1
        (applyOps [Op.book "A" "B" 1 false, Op.check "A" "B"] demoTable1)
      ∧ (applyOps [Op.book "A" "B" 1 false, Op.check "A" "B"] demoTable1).length
        = demoTable1.length) :=
  ⟨by decide,
    seats_evolve_monotonically [Op.book "A" "B" 1 false, Op.check "A" "B"]
      demoTable1 (by decide)⟩

/-! ### Frame property of the booking transaction -/

/-- The table after `book_ticket` is either untouched (abort / error /
insufficient paths) or the committed UPDATE of the selected rows. -/
lemma book_ticket_snd_cases (s e : String) (n : Int) (fault : Bool)
    (t : Table) :
    (book_ticket s e n fault t).2 = t
    ∨ (book_ticket s e n fault t).2
      = bookUpdate ((selectedSeats s e n t).map Seat.id) t := by
  unfold book_ticket
  split
  · exact Or.inl rfl
  · split
    · exact Or.inl rfl
    · split
      · exact Or.inl rfl
      · split
        · exact Or.inl rfl
        · exact Or.inr rfl

/-- C10: on every outcome of the booking transaction, the table keeps its
length, the selected rows are AVAILABLE rows matching the route — at most
`requestedCount` of them — and every row that is not among the selected
rows is returned with exactly its old contents (row ids unique). -/
theorem booking_touches_only_selected_seats (s e : String) (n : Int)
    (fault : Bool) (t : Table) (hnd : (t.map Seat.id).Nodup) :
    ((book_ticket s e n fault t).2).length = t.length
    ∧ (∀ x ∈ selectedSeats s e n t, seatMatches s e x = true)
    ∧ (selectedSeats s e n t).length ≤ n.toNat
    ∧ ∀ (i : Nat) (x : Seat), t.get? i = some x →
        x ∉ selectedSeats s e n t →
        ((book_ticket s e n fault t).2).get? i = some x := by
  rcases book_ticket_snd_cases s e n fault t with hcase | hcase
  · rw [hcase]
    exact ⟨rfl, selectedSeats_matches s e n t, selectedSeats_length_le s e n t,
      fun i x hx _ => hx⟩
  · rw [hcase]
    refine ⟨?_, selectedSeats_matches s e n t, selectedSeats_length_le s e n t,
      ?_⟩
    · unfold bookUpdate
      exact List.length_map t _
    · intro i x hx hnotsel
      have hxt : x ∈ t := List.get?_mem hx
      have hc : ((selectedSeats s e n t).map Seat.id).contains x.id = false := by
        cases hcc : ((selectedSeats s e n t).map Seat.id).contains x.id
        · rfl
        · exact absurd
            (mem_of_contains_id (selectedSeats_sublist s e n t) hnd hxt hcc)
            hnotsel
      show (t.map (fun r =>
          if ((selectedSeats s e n t).map Seat.id).contains r.id
          then { r with seat_status := 1 } else r)).get? i = some x
      rw [List.get?_map, hx]
      show some (if ((selectedSeats s e n t).map Seat.id).contains x.id
          then { x with seat_status := 1 } else x) = some x
      rw [hc]
      simp

/-- Witness for C10: booking 2 of 5 seats; the unselected seat with id 3
is returned unchanged. -/
theorem booking_touches_only_selected_seats_witness :
    ((demoTable.map Seat.id).Nodup)
    ∧ (((book_ticket "A" "B" 2 false demoTable).2).length = demoTable.length
      ∧ (∀ x ∈ selectedSeats "A" "B" 2 demoTable,
          seatMatches "A" "B" x = true)
      ∧ (selectedSeats "A" "B" 2 demoTable).length ≤ (2 : Int).toNat
      ∧ ∀ (i : Nat) (x : Seat), demoTable.get? i = some x →
          x ∉ selectedSeats "A" "B" 2 demoTable →
          ((book_ticket "A" "B" 2 false demoTable).2).get? i = some x) :=
  ⟨by decide,
    booking_touches_only_selected_seats "A" "B" 2 false demoTable (by decide)⟩

/-- C9: booking is not idempotent — with `2n` seats available, repeating
an identical successful `book_ticket_tool` call decrements again: both
calls succeed with `booked = n` and the final AVAILABLE count is
`A - 2n`. -/
theorem booking_not_idempotent (s e : String) (n : Int) (t : Table)
    (hnd : (t.map Seat.id).Nodup) (h1 : 1 ≤ n)
    (h2 : 2 * n ≤ (check_ticket s e t : Int)) :
    (book_ticket_tool s e n false t).1
      = { status := BookStatus.success,
          message := "订票成功，扣减 " ++ toString n ++ " 张票", booked := n }
    ∧ (book_ticket_tool s e n false (book_ticket_tool s e n false t).2).1
      = { status := BookStatus.success,
          message := "订票成功，扣减 " ++ toString n ++ " 张票", booked := n }
    ∧ ((check_ticket s e (book_ticket_tool s e n false
          (book_ticket_tool s e n false t).2).2 : Int)
        = (check_ticket s e t : Int) - 2 * n) := by
  have hle1 : n ≤ (check_ticket s e t : Int) := by omega
  obtain ⟨ha1, hb1, hc1⟩ := book_ticket_tool_step s e n t hnd h1 hle1
  have hnd2 : (((book_ticket_tool s e n false t).2).map Seat.id).Nodup := by
    rw [hc1]
    exact hnd
  have hle2 : n ≤ (check_ticket s e (book_ticket_tool s e n false t).2 : Int) := by
    rw [hb1]
    omega
  obtain ⟨ha2, hb2, -⟩ := book_ticket_tool_step s e n _ hnd2 h1 hle2
  refine ⟨ha1, ha2, ?_⟩
  rw [hb2, hb1]
  ring

/-- Witness for C9: with 5 seats, two identical bookings of 2 both succeed
and leave 1 seat (5 − 2·2). -/
theorem booking_not_idempotent_witness :
    ((demoTable.map Seat.id).Nodup ∧ (1 : Int) ≤ 2
        ∧ 2 * 2 ≤ (check_ticket "A" "B" demoTable : Int))
    ∧ ((book_ticket_tool "A" "B" 2 false demoTable).1
        = { status := BookStatus.success,
            message := "订票成功，扣减 " ++ toString (2 : Int) ++ " 张票",
            booked := 2 }
      ∧ (book_ticket_tool "A" "B" 2 false
            (book_ticket_tool "A" "B" 2 false demoTable).2).1
        = { status := BookStatus.success,
            message := "订票成功，扣减 " ++ toString (2 : Int) ++ " 张票",
            booked := 2 }
      ∧ ((check_ticket "A" "B" (book_ticket_tool "A" "B" 2 false
            (book_ticket_tool "A" "B" 2 false demoTable).2).2 : Int)
          = (check_ticket "A" "B" demoTable : Int) - 2 * 2)) :=
  ⟨⟨by decide, by decide, by decide⟩,
    booking_not_idempotent "A" "B" 2 demoTable (by decide) (by decide)
      (by decide)⟩
